import Mathlib

/-!
# Inventory backend entry point (`backend/cmd/main.go`)

A shallow embedding of the composition root of the inventory service:
`main`, `initDB`, `initRouter`, `initServer`, `initRepositories` and
`initUsecases`.

Library calls (gin, net/http, gorm, zap, time) are given their documented
behaviour.  Effects on the outside world are recorded as an explicit list
of events, and everything the environment decides (whether the database
opens, which signal arrives, what the clock reads) is an input.
-/

namespace Inventory

/-! ## net/http headers -/

/-- A response or request header map: canonical key to values. -/
abbrev Header := List (String × List String)

/-- `validHeaderFieldByte` of package textproto: letters, digits and the
punctuation a header name may contain. -/
def validHeaderFieldByte (c : Char) : Bool :=
  c.isAlphanum ||
    [33, 35, 36, 37, 38, 39, 42, 43, 45, 46, 94, 95, 96, 124, 126].contains c.toNat

/-- The rewriting loop of `canonicalMIMEHeaderKey`: upper case at the start
and after each dash, lower case elsewhere. -/
def canonicalChars : Bool → List Char → List Char
  | _, [] => []
  | upper, c :: cs =>
    let c1 := if upper && c.isLower then c.toUpper
      else if !upper && c.isUpper then c.toLower
      else c
    c1 :: canonicalChars (c1 == '-') cs

/-- `textproto.CanonicalMIMEHeaderKey`: a key with a space or another byte
that is not allowed in a header name is returned unchanged. -/
def CanonicalMIMEHeaderKey (s : String) : String :=
  if s.data.all validHeaderFieldByte then String.mk (canonicalChars true s.data) else s

/-- `http.Header.Set`: replaces whatever is stored under the canonical form
of `key` by the single value. -/
def Header.Set (h : Header) (key value : String) : Header :=
  (CanonicalMIMEHeaderKey key, [value]) :: h.filter (fun kv => kv.1 != CanonicalMIMEHeaderKey key)

/-- `http.Header.Values`: all values stored under the canonical form of `key`, if any. -/
def Header.Values (h : Header) (key : String) : Option (List String) :=
  h.lookup (CanonicalMIMEHeaderKey key)

/-! ## time -/

/-- `time.Duration`: a count of nanoseconds. -/
abbrev Duration := Int

/-- `time.Second`. -/
def Second : Duration := 1000000000

/-- A `time.Time` as seen through `Date()`, `Clock()` and `Zone()`. -/
structure Time where
  year : Int
  month : Nat
  day : Nat
  hour : Nat
  minute : Nat
  second : Nat
  /-- Seconds east of UTC. -/
  offset : Int
  deriving DecidableEq, Repr

/-- The `appendInt` helper of package time: decimal, zero padded to `width`, sign first. -/
def appendInt (x : Int) (width : Nat) : String :=
  let digits := Nat.repr x.natAbs
  (if x < 0 then "-" else "") ++ String.mk (List.replicate (width - digits.length) '0') ++ digits

/-- The zone element `Z07:00` of a layout. -/
def formatZone (offset : Int) : String :=
  if offset = 0 then "Z"
  else
    let zone := Int.tdiv offset 60
    let sign := if zone < 0 then "-" else "+"
    let zone := if zone < 0 then -zone else zone
    sign ++ appendInt (Int.tdiv zone 60) 2 ++ ":" ++ appendInt (Int.tmod zone 60) 2

/-- `t.Format(time.RFC3339)`, layout `2006-01-02T15:04:05Z07:00`. -/
def Time.FormatRFC3339 (t : Time) : String :=
  appendInt t.year 4 ++ "-" ++ appendInt t.month 2 ++ "-" ++ appendInt t.day 2 ++ "T" ++
    appendInt t.hour 2 ++ ":" ++ appendInt t.minute 2 ++ ":" ++ appendInt t.second 2 ++
    formatZone t.offset

/-- A clock reading with a four-digit year, calendar and clock fields in
range and a zone offset of whole minutes within a day: what `time.Now()`
returns in the years RFC 3339 covers. -/
def Time.Valid (t : Time) : Prop :=
  0 ≤ t.year ∧ t.year ≤ 9999 ∧ 1 ≤ t.month ∧ t.month ≤ 12 ∧ 1 ≤ t.day ∧ t.day ≤ 31 ∧
    t.hour < 24 ∧ t.minute < 60 ∧ t.second < 60 ∧
    t.offset % 60 = 0 ∧ -86400 < t.offset ∧ t.offset < 86400

instance (t : Time) : Decidable t.Valid := by
  unfold Time.Valid
  infer_instance

/-- The character of the last decimal digit of `n`. -/
def decimalDigit (n : Nat) : Char := Char.ofNat (48 + n % 10)

/-- RFC 3339 `2DIGIT`: the last two decimal digits of `n`. -/
def twoDigits (n : Nat) : List Char := [decimalDigit (n / 10), decimalDigit n]

/-- RFC 3339 `4DIGIT`: the last four decimal digits of `n`. -/
def fourDigits (n : Nat) : List Char :=
  [decimalDigit (n / 1000), decimalDigit (n / 100), decimalDigit (n / 10), decimalDigit n]

/-- RFC 3339 `time-offset`, written from the RFC and not from the code: Z
for UTC, otherwise the sign, the hours and the minutes of the offset. -/
def rfc3339Offset (offset : Int) : List Char :=
  if offset = 0 then ['Z']
  else (if offset < 0 then '-' else '+') ::
    (twoDigits (offset.natAbs / 3600) ++ ':' :: twoDigits (offset.natAbs / 60 % 60))

/-- RFC 3339 `date-time` without fraction of a second, written from the
RFC and not from the code: `full-date "T" partial-time time-offset`. -/
def rfc3339DateTime (t : Time) : String :=
  String.mk (fourDigits t.year.toNat ++ '-' :: twoDigits t.month ++ '-' :: twoDigits t.day ++
    'T' :: twoDigits t.hour ++ ':' :: twoDigits t.minute ++ ':' :: twoDigits t.second ++
    rfc3339Offset t.offset)

/-! ## gin -/

/-- A value stored in a `gin.H` map. -/
inductive Value where
  | str (s : String)
  | num (n : Int)
  | bool (b : Bool)
  deriving DecidableEq, Repr

/-- `gin.H`: a string-keyed map, kept in the key order `encoding/json` writes it. -/
abbrev H := List (String × Value)

/-- What has been written as the response body. -/
inductive Body where
  | empty
  | json (obj : H)
  deriving DecidableEq, Repr

/-- The part of `*http.Request` the entry point looks at. -/
structure Request where
  Method : String
  Path : String
  Header : Header
  deriving DecidableEq, Repr

/-- The response under construction (`c.Writer`). `written` says whether
the response header has gone out (`Written()`). -/
structure ResponseWriter where
  header : Header
  status : Nat
  body : Body
  written : Bool
  deriving DecidableEq, Repr

/-- `gin.Context`: the request, the response, the position in the handler
chain and the errors attached with `c.Error`. `now` is what `time.Now()`
reads while this request is being handled. -/
structure Context where
  Request : Request
  Writer : ResponseWriter
  index : Int
  now : Time
  Errors : List String
  deriving DecidableEq, Repr

/-- `abortIndex = math.MaxInt8 >> 1`. -/
def abortIndex : Int := 63

/-- Conversion to `int8`, the type of the position in the chain: wraps around. -/
def int8 (i : Int) : Int := (i + 128) % 256 - 128

/-- `c.Writer.Header().Set(key, value)`. -/
def Context.SetHeader (c : Context) (key value : String) : Context :=
  { c with Writer := { c.Writer with header := c.Writer.header.Set key value } }

/-- `c.Status(code)` on a response whose header has not been written. Once
the header is written gin keeps the status it went out with; `Recovery`,
which acts after a handler may have written, checks for it. -/
def Context.Status (c : Context) (code : Nat) : Context :=
  { c with Writer := { c.Writer with status := code } }

/-- `c.Writer.WriteHeaderNow()`: the header goes out with the status set so far. -/
def Context.WriteHeaderNow (c : Context) : Context :=
  { c with Writer := { c.Writer with written := true } }

/-- `c.Error(err)`: attaches the error to the context. -/
def Context.Error (c : Context) (err : String) : Context :=
  { c with Errors := c.Errors ++ [err] }

/-- `c.Abort()`: no pending handler of the chain is called. -/
def Context.Abort (c : Context) : Context :=
  { c with index := abortIndex }

/-- `c.IsAborted()`. -/
def Context.IsAborted (c : Context) : Bool :=
  decide (c.index ≥ abortIndex)

/-- `c.AbortWithStatus(code)`: sets the status, writes the header, then aborts. -/
def Context.AbortWithStatus (c : Context) (code : Nat) : Context :=
  ((c.Status code).WriteHeaderNow).Abort

/-- `c.JSON(code, obj)`: status, JSON content type and the object written as body. -/
def Context.JSON (c : Context) (code : Nat) (obj : H) : Context :=
  let c := c.Status code
  { c with Writer := { c.Writer with
      header := c.Writer.header.Set "Content-Type" "application/json; charset=utf-8"
      body := Body.json obj
      written := true } }

/-- The value a handler panics with. `brokenConnection` says whether it is
a `*net.OpError` for a broken pipe or a connection reset by peer, the case
`gin.Recovery()` treats apart. -/
structure PanicValue where
  msg : String
  brokenConnection : Bool
  deriving DecidableEq, Repr

/-- How running handlers ends: normally, by a panic that is unwinding the
stack, or (in the model only) by running out of fuel. -/
inductive Result where
  | done (c : Context)
  | panicked (c : Context) (v : PanicValue)
  | exhausted
  deriving DecidableEq, Repr

/-- A `gin.HandlerFunc`.  The first argument is what `c.Next()` does when
called from inside the handler. -/
abbrev HandlerFunc := (Context → Result) → Context → Result

/-- The loop of `c.Next()`: run the handlers from `c.index` on, each
followed by `c.index++` in `int8`. Indexing the chain at a negative
position is a run-time panic. -/
def Context.loop (hs : List HandlerFunc) : Nat → Context → Result
  | 0, _ => Result.exhausted
  | fuel + 1, c =>
    if c.index < int8 hs.length then
      match (if c.index < 0 then none else hs[c.index.toNat]?) with
      | none => Result.panicked c { msg := "index out of range", brokenConnection := false }
      | some h =>
        match h (fun c1 => Context.loop hs fuel { c1 with index := int8 (c1.index + 1) }) c with
        | Result.done c1 => Context.loop hs fuel { c1 with index := int8 (c1.index + 1) }
        | r => r
    else Result.done c

/-- `c.Next()` on the chain `hs`. -/
def Context.Next (hs : List HandlerFunc) (fuel : Nat) (c : Context) : Result :=
  Context.loop hs fuel { c with index := int8 (c.index + 1) }

/-- `gin.Recovery()`: recovers from any panic of the handlers it wraps. For
a broken connection it attaches the error and aborts; otherwise it calls
`AbortWithStatus(500)`, which leaves the status of a response whose header
is already written as it is. -/
def Recovery : HandlerFunc := fun next c =>
  match next c with
  | Result.panicked c1 v =>
    if v.brokenConnection then Result.done (c1.Error v.msg).Abort
    else if c1.Writer.written then Result.done c1.Abort
    else Result.done (c1.AbortWithStatus 500)
  | r => r

/-- A registered route with the full chain that serves it. -/
structure RouteInfo where
  Method : String
  Path : String
  Handlers : List HandlerFunc

/-- `gin.Engine`: the middleware of the root group and the registered routes. -/
structure Engine where
  Handlers : List HandlerFunc
  trees : List RouteInfo

/-- `gin.New()`. -/
def New : Engine := { Handlers := [], trees := [] }

/-- `r.Use(middleware)`. -/
def Engine.Use (r : Engine) (middleware : HandlerFunc) : Engine :=
  { r with Handlers := r.Handlers ++ [middleware] }

/-- `group.handle`: the route is served by the group middleware registered
so far followed by the given handlers (`combineHandlers`). -/
def Engine.handle (r : Engine) (method path : String) (handlers : List HandlerFunc) : Engine :=
  { r with trees := r.trees ++ [{ Method := method, Path := path, Handlers := r.Handlers ++ handlers }] }

/-- `r.GET(path, handler)`. -/
def Engine.GET (r : Engine) (path : String) (handler : HandlerFunc) : Engine :=
  r.handle "GET" path [handler]

/-- The context a request starts with (`c.reset()`); gin serves the request
by calling `Next` on the chain of the route it is dispatched to. -/
def newContext (req : Request) (now : Time) : Context :=
  { Request := req
    Writer := { header := [], status := 200, body := Body.empty, written := false }
    index := -1
    now := now
    Errors := [] }

/-! ## `initRouter` -/

/-- The CORS middleware installed by `initRouter`. -/
def corsMiddleware : HandlerFunc := fun next c =>
  let c := c.SetHeader "Access-Control-Allow-Origin" "*"
  let c := c.SetHeader "Access-Control-Allow-Credentials" "true"
  let c := c.SetHeader "Access-Control-Allow-Headers" "Content-Type, Content-Length, Accept-Encoding, X-CSRF-Token, Authorization, accept, origin, Cache-Control, X-Requested-With"
  let c := c.SetHeader "Access-Control-Allow-Methods" "POST, OPTIONS, GET, PUT, DELETE"
  if c.Request.Method = "OPTIONS" then
    Result.done (c.AbortWithStatus 204)
  else
    next c

/-- The router built by `initRouter`.  `middlewareLogger` and
`middlewareRecovery` are `middleware.Logger(logger)` and
`middleware.Recovery(logger)` of the repository's middleware package. -/
def initRouter (middlewareLogger middlewareRecovery : HandlerFunc) : Engine :=
  let r := New
  let r := r.Use Recovery
  let r := r.Use middlewareLogger
  let r := r.Use middlewareRecovery
  let r := r.Use corsMiddleware
  r

/-- The handler `main` registers for `GET /health`. -/
def healthHandler : HandlerFunc := fun _ c =>
  Result.done (c.JSON 200 [("status", Value.str "ok"), ("time", Value.str c.now.FormatRFC3339)])

/-! ## Configuration, persistence handles and the process -/

/-- `config.ServerConfig`: listen port and gin mode. -/
structure ServerConfig where
  Port : String
  Mode : String
  deriving DecidableEq, Repr

/-- `config.DatabaseConfig`, seen through `GetDSN()`. -/
structure DatabaseConfig where
  GetDSN : String
  deriving DecidableEq, Repr

/-- `config.Config`. -/
structure Config where
  Server : ServerConfig
  Database : DatabaseConfig
  deriving DecidableEq, Repr

/-- The entity types handed to `AutoMigrate`. -/
inductive Model where
  | Asset
  | AssetCategory
  | Location
  | AuditLog
  deriving DecidableEq, Repr

/-- Operating system signals. -/
inductive Signal where
  | SIGINT
  | SIGTERM
  | SIGHUP
  | SIGQUIT
  | SIGUSR1
  deriving DecidableEq, Repr

/-- `*gorm.DB`: a handle on the database opened with the given DSN. -/
structure DB where
  dsn : String
  deriving DecidableEq, Repr

/-- What the process does to the outside world, in program order. -/
inductive Event where
  | loadConfig
  | newLogger
  | setMode (mode : String)
  | dbOpen (dsn : String)
  | autoMigrate (models : List Model)
  | newRouter
  | newServer (addr : String)
  | newRepositories
  | newUsecases
  | route (method path : String)
  | newHandler (name : String)
  | goListenAndServe (addr : String)
  | notify (sigs : List Signal)
  | received (sig : Signal)
  | info (msg : String)
  | withTimeout (timeout : Duration) (deadline : Int)
  | shutdown (deadline : Int)
  | cancel
  | loggerSync
  | fatal (msg : String)
  deriving DecidableEq, Repr

/-- How the main goroutine ends other than by returning. `fatal` is
`os.Exit(1)` after a fatal log line; `killed` is the default action of a
signal nobody asked to be notified of (SIGHUP, SIGQUIT); `blocked` is
waiting forever on the signal channel, also after a signal the Go run time
catches without acting (SIGUSR1). -/
inductive Exit where
  | fatal (msg : String)
  | panicked (msg : String)
  | killed (sig : Signal)
  | blocked
  deriving DecidableEq, Repr

/-- The events in which `main` builds the router, the server, the
repositories, the usecases or the handlers, registers a route or starts serving. -/
def Event.isConstruction : Event → Bool
  | Event.newRouter => true
  | Event.newServer _ => true
  | Event.newRepositories => true
  | Event.newUsecases => true
  | Event.route _ _ => true
  | Event.newHandler _ => true
  | Event.goListenAndServe _ => true
  | _ => false

/-- One step of the process: a value to go on with, or the end of the process. -/
inductive Step (α : Type) where
  | ok (a : α)
  | stop (e : Exit)
  deriving DecidableEq, Repr

/-- A computation of the main goroutine: extends the event list. -/
def Proc (α : Type) : Type := List Event → List Event × Step α

/-- Sequencing: nothing runs after the process has ended. -/
def Proc.bind {α β : Type} (m : Proc α) (f : α → Proc β) : Proc β := fun t =>
  match m t with
  | (t1, Step.ok a) => f a t1
  | (t1, Step.stop e) => (t1, Step.stop e)

instance : Monad Proc where
  pure a := fun t => (t, Step.ok a)
  bind := Proc.bind

/-- Record an event. -/
def emit (e : Event) : Proc Unit := fun t => (t ++ [e], Step.ok ())

/-- `logger.Fatal` and `log.Fatal`: write the line, then `os.Exit(1)`. -/
def Fatal {α : Type} (msg : String) : Proc α := fun t =>
  (t ++ [Event.fatal msg], Step.stop (Exit.fatal msg))

/-- End the main goroutine without a value. -/
def halt {α : Type} (e : Exit) : Proc α := fun t => (t, Step.stop e)

/-- Everything the environment decides during one run of the process. -/
structure Env where
  /-- Result of `config.LoadConfig()`. -/
  loadConfig : Except String Config
  /-- Error of `zap.NewProduction()`, if any. -/
  newLogger : Option String
  /-- Error of `gorm.Open` for a DSN, if any. -/
  dbOpen : String → Option String
  /-- Error of `db.AutoMigrate` for the given models, if any. -/
  autoMigrate : DB → List Model → Option String
  /-- The signal delivered to the process while `main` waits on the `quit`
  channel, if one ever comes. -/
  signal : Option Signal
  /-- Clock reading (nanoseconds) when the shutdown context is created. -/
  now : Int
  /-- Error of `server.Shutdown` for a context with the given deadline, if any. -/
  shutdown : Int → Option String

/-- The schema migrated at startup. -/
def migratedModels : List Model :=
  [Model.Asset, Model.AssetCategory, Model.Location, Model.AuditLog]

/-- `initDB`: open the connection, migrate the schema, fatal on either error. -/
def initDB (env : Env) (cfg : Config) : Proc DB := do
  emit (Event.dbOpen cfg.Database.GetDSN)
  let db : DB := { dsn := cfg.Database.GetDSN }
  match env.dbOpen cfg.Database.GetDSN with
  | some _ => Fatal "Failed to connect to database"
  | none => pure ()
  emit (Event.autoMigrate migratedModels)
  match env.autoMigrate db migratedModels with
  | some _ => Fatal "Failed to migrate database"
  | none => pure ()
  pure db

/-- `*http.Server`. -/
structure Server where
  Addr : String
  Handler : Engine
  ReadTimeout : Duration
  WriteTimeout : Duration
  IdleTimeout : Duration

/-- `initServer`. -/
def initServer (cfg : Config) (router : Engine) : Server :=
  { Addr := ":" ++ cfg.Server.Port
    Handler := router
    ReadTimeout := 15 * Second
    WriteTimeout := 15 * Second
    IdleTimeout := 60 * Second }

/-! ## Repositories and usecases -/

/-- The value `postgres.NewAssetRepository(db)` builds. -/
structure AssetRepository where
  db : DB
  deriving DecidableEq, Repr

/-- The value `postgres.NewAssetCategoryRepository(db)` builds. -/
structure AssetCategoryRepository where
  db : DB
  deriving DecidableEq, Repr

/-- The value `postgres.NewLocationRepository(db)` builds. -/
structure LocationRepository where
  db : DB
  deriving DecidableEq, Repr

/-- The value `postgres.NewAuditLogRepository(db)` builds. -/
structure AuditLogRepository where
  db : DB
  deriving DecidableEq, Repr

/-- The struct `repositories`. -/
structure repositories where
  asset : AssetRepository
  category : AssetCategoryRepository
  location : LocationRepository
  auditLog : AuditLogRepository
  deriving DecidableEq, Repr

/-- `initRepositories`. -/
def initRepositories (db : DB) : repositories :=
  { asset := { db := db }
    category := { db := db }
    location := { db := db }
    auditLog := { db := db } }

/-- The audit-log usecase: it holds the repository `usecase.NewAuditLogUsecase` is given. -/
structure AuditLogUsecase where
  repo : AuditLogRepository
  deriving DecidableEq, Repr

/-- The asset usecase: it holds the four collaborators `usecase.NewAssetUsecase` is given. -/
structure AssetUsecase where
  assetRepo : AssetRepository
  categoryRepo : AssetCategoryRepository
  locationRepo : LocationRepository
  auditLogUsecase : AuditLogUsecase
  deriving DecidableEq, Repr

/-- The category usecase: it holds the one collaborator `usecase.NewAssetCategoryUsecase` is given. -/
structure AssetCategoryUsecase where
  categoryRepo : AssetCategoryRepository
  deriving DecidableEq, Repr

/-- The location usecase: it holds the one collaborator `usecase.NewLocationUseCase` is given. -/
structure LocationUseCase where
  locationRepo : LocationRepository
  deriving DecidableEq, Repr

/-- `usecase.NewAuditLogUsecase(repo)`. -/
def NewAuditLogUsecase (repo : AuditLogRepository) : AuditLogUsecase :=
  { repo := repo }

/-- `usecase.NewAssetUsecase(assetRepo, categoryRepo, locationRepo, auditLogUsecase)`. -/
def NewAssetUsecase (assetRepo : AssetRepository) (categoryRepo : AssetCategoryRepository)
    (locationRepo : LocationRepository) (auditLogUsecase : AuditLogUsecase) : AssetUsecase :=
  { assetRepo := assetRepo, categoryRepo := categoryRepo, locationRepo := locationRepo,
    auditLogUsecase := auditLogUsecase }

/-- `usecase.NewAssetCategoryUsecase(categoryRepo)`. -/
def NewAssetCategoryUsecase (categoryRepo : AssetCategoryRepository) : AssetCategoryUsecase :=
  { categoryRepo := categoryRepo }

/-- `usecase.NewLocationUseCase(locationRepo)`. -/
def NewLocationUseCase (locationRepo : LocationRepository) : LocationUseCase :=
  { locationRepo := locationRepo }

/-- The audit usecase an asset usecase can call: the one it was constructed with. -/
def AssetUsecase.auditCollaborator (u : AssetUsecase) : Option AuditLogUsecase :=
  some u.auditLogUsecase

/-- The audit usecase a category usecase can call: its constructor receives none. -/
def AssetCategoryUsecase.auditCollaborator (_ : AssetCategoryUsecase) : Option AuditLogUsecase :=
  none

/-- The audit usecase a location usecase can call: its constructor receives none. -/
def LocationUseCase.auditCollaborator (_ : LocationUseCase) : Option AuditLogUsecase :=
  none

/-- The struct `usecases`. -/
structure usecases where
  Asset : AssetUsecase
  Category : AssetCategoryUsecase
  Location : LocationUseCase
  AuditLog : AuditLogUsecase
  deriving DecidableEq, Repr

/-- `initUsecases`. -/
def initUsecases (repos : repositories) : usecases :=
  let auditLogUsecase := NewAuditLogUsecase repos.auditLog
  { Asset := NewAssetUsecase repos.asset repos.category repos.location auditLogUsecase
    Category := NewAssetCategoryUsecase repos.category
    Location := NewLocationUseCase repos.location
    AuditLog := auditLogUsecase }

/-! ## `main` -/

/-- A route one of the delivery constructors registers on the router:
method, path and the handlers given for it (group middleware included). -/
structure RouteSpec where
  Method : String
  Path : String
  Handlers : List HandlerFunc

/-- Registering routes one after the other. -/
def Engine.register (r : Engine) (routes : List RouteSpec) : Engine :=
  routes.foldl (fun r s => r.handle s.Method s.Path s.Handlers) r

/-- The repository's own packages that `main` calls and that shape the
router: the two middleware of package `middleware` and, for each delivery
constructor, the routes it registers for the usecase it is given. -/
structure Packages where
  Logger : HandlerFunc
  Recovery : HandlerFunc
  NewAssetHandler : AssetUsecase → List RouteSpec
  NewCategoryHandler : AssetCategoryUsecase → List RouteSpec
  NewLocationHandler : LocationUseCase → List RouteSpec
  NewAuditLogHandler : AuditLogUsecase → List RouteSpec

/-- The values `main` builds once the database is up (from `initRouter`
to the last delivery constructor): the server, whose handler is the router
with every route registered. -/
def wire (pkgs : Packages) (cfg : Config) (db : DB) : Server :=
  let router := initRouter pkgs.Logger pkgs.Recovery
  let server := initServer cfg router
  let repos := initRepositories db
  let usecases := initUsecases repos
  let router := router.GET "/health" healthHandler
  let router := router.register (pkgs.NewAssetHandler usecases.Asset)
  let router := router.register (pkgs.NewCategoryHandler usecases.Category)
  let router := router.register (pkgs.NewLocationHandler usecases.Location)
  let router := router.register (pkgs.NewAuditLogHandler usecases.AuditLog)
  { server with Handler := router }

/-- The modes `gin.SetMode` accepts; any other value makes it panic. -/
def validMode (mode : String) : Bool :=
  mode == "debug" || mode == "release" || mode == "test" || mode == ""

/-- The grace period `main` gives `server.Shutdown`. -/
def shutdownTimeout : Duration := 15 * Second

/-- The main goroutine of `main`. The goroutine that calls `ListenAndServe`
runs beside it and is not part of this sequence: the runs described are
those in which the server keeps serving until `Shutdown`. -/
def main (pkgs : Packages) (env : Env) : Proc Unit := do
  emit Event.loadConfig
  let cfg ← (match env.loadConfig with
    | Except.error _ => Fatal "Failed to load configuration:"
    | Except.ok cfg => pure cfg : Proc Config)
  emit Event.newLogger
  match env.newLogger with
  | some _ => Fatal "Failed to initialize logger:"
  | none => pure ()
  emit (Event.setMode cfg.Server.Mode)
  if validMode cfg.Server.Mode then pure ()
  else do
    emit Event.loggerSync
    halt (Exit.panicked ("gin mode unknown: " ++ cfg.Server.Mode))
  let db ← initDB env cfg
  emit Event.newRouter
  let server := wire pkgs cfg db
  emit (Event.newServer server.Addr)
  emit Event.newRepositories
  emit Event.newUsecases
  emit (Event.route "GET" "/health")
  emit (Event.newHandler "Asset")
  emit (Event.newHandler "Category")
  emit (Event.newHandler "Location")
  emit (Event.newHandler "AuditLog")
  emit (Event.goListenAndServe server.Addr)
  emit (Event.notify [Signal.SIGINT, Signal.SIGTERM])
  match env.signal with
  | none => halt Exit.blocked
  | some sig =>
    if sig = Signal.SIGINT ∨ sig = Signal.SIGTERM then emit (Event.received sig)
    else if sig = Signal.SIGUSR1 then halt Exit.blocked
    else halt (Exit.killed sig)
  emit (Event.info "Shutting down server...")
  let deadline := env.now + shutdownTimeout
  emit (Event.withTimeout shutdownTimeout deadline)
  emit (Event.shutdown deadline)
  match env.shutdown deadline with
  | some _ => Fatal "Server forced to shutdown:"
  | none => pure ()
  emit (Event.info "Server exiting")
  emit Event.cancel
  emit Event.loggerSync

/-- Running the process from the start. -/
def run (pkgs : Packages) (env : Env) : List Event × Step Unit :=
  main pkgs env []

/-! ## The audit-logged mutation workflow

The usecase and repository packages are not part of the entry point; what
their operations do is taken from the specification of the workflow. -/

/-- Modelled from the spec: the entity kinds of the data model that the
audit trail refers to (the target entity type of an AuditLog). -/
inductive EntityType where
  | Asset
  | AssetCategory
  | Location
  deriving DecidableEq, Repr

/-- Modelled from the spec: the action kind of an AuditLog (create, update, delete). -/
inductive Action where
  | create
  | update
  | delete
  deriving DecidableEq, Repr

/-- Modelled from the spec: the AuditLog entity of package domain, an
immutable record of a single mutation. -/
structure AuditLog where
  id : Nat
  entityType : EntityType
  entityID : Nat
  action : Action
  actor : Option String
  change : String
  timestamp : Nat
  deriving DecidableEq, Repr

/-- Modelled from the spec: a durable write of the persistent store, either
a mutation of an entity or an appended audit record. -/
inductive Write where
  | entity (t : EntityType) (id : Nat) (a : Action)
  | audit (r : AuditLog)
  deriving DecidableEq, Repr

/-- Modelled from the spec: the errors of the repositories and of the audit log store. -/
inductive StoreError where
  | NotFound
  | StorageError
  deriving DecidableEq, Repr

/-- Modelled from the spec: the persistent storage behind the postgres
repositories: the stored entities, the durable writes in commit order, and
whether the audit log store currently accepts writes. -/
structure Storage where
  entities : List (EntityType × Nat)
  journal : List Write
  auditWritable : Bool
  deriving DecidableEq, Repr

/-- Modelled from the spec: the content of the Audit Log Store, oldest first. -/
def Storage.auditLogs (s : Storage) : List AuditLog :=
  s.journal.filterMap (fun w => match w with
    | Write.audit r => some r
    | Write.entity _ _ _ => none)

/-- Modelled from the spec: the Entity Repository operations of package
postgres (create, update, delete against persistent storage, returning a
NotFound or StorageError on failure). -/
def Storage.mutate (s : Storage) (t : EntityType) (a : Action) (id : Nat) : Except StoreError Storage :=
  match a with
  | Action.create =>
    if (t, id) ∈ s.entities then Except.error StoreError.StorageError
    else Except.ok { s with entities := s.entities ++ [(t, id)], journal := s.journal ++ [Write.entity t id a] }
  | Action.update =>
    if (t, id) ∈ s.entities then Except.ok { s with journal := s.journal ++ [Write.entity t id a] }
    else Except.error StoreError.NotFound
  | Action.delete =>
    if (t, id) ∈ s.entities then
      Except.ok { s with entities := s.entities.filter (fun e => e != (t, id)), journal := s.journal ++ [Write.entity t id a] }
    else Except.error StoreError.NotFound

/-- Modelled from the spec: the append operation of the Audit Log Store
(the audit log repository of package postgres): a durable write, or a StorageError. -/
def Storage.append (s : Storage) (r : AuditLog) : Except StoreError Storage :=
  if s.auditWritable then Except.ok { s with journal := s.journal ++ [Write.audit r] }
  else Except.error StoreError.StorageError

/-- Modelled from the spec: the record operation of the Audit Usecase of
package usecase: builds an AuditLog from its inputs, assigns the timestamp
and delegates to the store. -/
def AuditLogUsecase.Record (_ : AuditLogUsecase) (s : Storage) (t : EntityType) (id : Nat) (a : Action)
    (actor : Option String) (change : String) (timestamp : Nat) : Except StoreError Storage :=
  s.append { id := s.auditLogs.length + 1, entityType := t, entityID := id, action := a,
             actor := actor, change := change, timestamp := timestamp }

/-- Modelled from the spec: a mutating operation (create, update or delete)
of the Entity Usecases of package usecase, for the entity kind `t`. The
repository operation runs first; on its failure no audit entry is recorded
and the failure is returned unchanged; on its success the Audit Usecase is
invoked with the action, and the result of the repository is returned
whatever the audit write does. -/
def usecases.Mutate (u : usecases) (t : EntityType) (a : Action) (id : Nat)
    (actor : Option String) (change : String) (timestamp : Nat) (s : Storage) :
    Except StoreError Unit × Storage :=
  match s.mutate t a id with
  | Except.error e => (Except.error e, s)
  | Except.ok s1 =>
    match u.AuditLog.Record s1 t id a actor change timestamp with
    | Except.ok s2 => (Except.ok (), s2)
    | Except.error _ => (Except.ok (), s1)

/-! ## Concrete values used to exercise the definitions -/

/-- A configuration: port 8080, release mode. -/
def sampleConfig : Config :=
  { Server := { Port := "8080", Mode := "release" }, Database := { GetDSN := "host=localhost dbname=inventory" } }

/-- A database handle. -/
def sampleDB : DB := { dsn := "host=localhost dbname=inventory" }

/-- A clock reading: 2 January 2024, 03:04:05 UTC. -/
def sampleTime : Time :=
  { year := 2024, month := 1, day := 2, hour := 3, minute := 4, second := 5, offset := 0 }

/-- A clock reading in a zone five and a half hours west of UTC. -/
def zonedTime : Time :=
  { year := 987, month := 12, day := 31, hour := 23, minute := 59, second := 58, offset := -19800 }

/-- A handler that panics. -/
def panickingHandler : HandlerFunc := fun _ c =>
  Result.panicked c { msg := "boom", brokenConnection := false }

/-- A handler that panics because the client has gone. -/
def brokenPipeHandler : HandlerFunc := fun _ c =>
  Result.panicked c { msg := "write: broken pipe", brokenConnection := true }

/-- A handler that writes a JSON answer with status 200 and then panics. -/
def writeThenPanicHandler : HandlerFunc := fun _ c =>
  Result.panicked (c.JSON 200 [("status", Value.str "ok")]) { msg := "boom", brokenConnection := false }

/-- A handler that sets its own Access-Control-Allow-Origin, under a lower-case key. -/
def overridingHandler : HandlerFunc := fun _ c =>
  Result.done (c.SetHeader "access-control-allow-origin" "https://example.org")

/-- Pass-through middleware, and one route each whose handler panics,
panics on a broken connection, and panics after writing. -/
def samplePackages : Packages :=
  { Logger := fun next c => next c
    Recovery := fun next c => next c
    NewAssetHandler := fun _ =>
      [{ Method := "GET", Path := "/api/v1/assets", Handlers := [panickingHandler] }]
    NewCategoryHandler := fun _ =>
      [{ Method := "GET", Path := "/api/v1/categories", Handlers := [brokenPipeHandler] }]
    NewLocationHandler := fun _ =>
      [{ Method := "GET", Path := "/api/v1/locations", Handlers := [writeThenPanicHandler] }]
    NewAuditLogHandler := fun _ => [] }

/-- An environment in which startup succeeds, SIGTERM arrives and shutdown completes in time. -/
def sampleEnv : Env :=
  { loadConfig := Except.ok sampleConfig
    newLogger := none
    dbOpen := fun _ => none
    autoMigrate := fun _ _ => none
    signal := some Signal.SIGTERM
    now := 1000
    shutdown := fun _ => none }

/-- An environment in which the database cannot be reached. -/
def unreachableEnv : Env :=
  { sampleEnv with dbOpen := fun _ => some "connection refused" }

/-- A context at the start of a request. -/
def sampleContext (method : String) : Context :=
  newContext { Method := method, Path := "/api/v1/assets", Header := [("Origin", ["http://example.org"])] } sampleTime

/-- An empty store whose audit log accepts writes. -/
def emptyStorage : Storage := { entities := [], journal := [], auditWritable := true }

/-- An empty store whose audit log refuses writes. -/
def brokenAuditStorage : Storage := { entities := [], journal := [], auditWritable := false }

/-! # Theorems -/


/-! ## Header lemmas -/

/-- After `Set`, the key holds exactly the value set. -/
theorem Header.Values_Set_self (h : Header) (k v : String) : (h.Set k v).Values k = some [v] := by
  simp [Header.Set, Header.Values, List.lookup]

/-- Dropping the entries of one key does not change what another key holds. -/
theorem Header.lookup_filter_ne (h : Header) (k k2 : String) (hne : k2 ≠ k) :
    (h.filter (fun kv => kv.1 != k)).lookup k2 = h.lookup k2 := by
  induction h with
  | nil => rfl
  | cons a t ih =>
    obtain ⟨a1, a2⟩ := a
    by_cases h1 : a1 = k
    · subst h1
      have h2 : (k2 == a1) = false := by simpa using hne
      simp [List.filter, List.lookup, h2, ih]
    · have h3 : (a1 != k) = true := by simpa using h1
      simp only [List.filter, h3, List.lookup]
      cases h4 : (k2 == a1) with
      | true => rfl
      | false => simpa using ih

/-- `Set` leaves every key with another canonical form as it was. -/
theorem Header.Values_Set_ne (h : Header) (k v k2 : String)
    (hne : CanonicalMIMEHeaderKey k2 ≠ CanonicalMIMEHeaderKey k) :
    (h.Set k v).Values k2 = h.Values k2 := by
  have h2 : (CanonicalMIMEHeaderKey k2 == CanonicalMIMEHeaderKey k) = false := by simpa using hne
  simp [Header.Set, Header.Values, List.lookup, h2, Header.lookup_filter_ne h _ _ hne]

/-! ## The CORS middleware and the health handler -/

/-- What the CORS middleware does, with the context it has built after its
four header assignments made explicit. -/
theorem corsMiddleware_cases (c : Context) :
    ∃ c1 : Context,
      (∀ next, corsMiddleware next c =
        if c.Request.Method = "OPTIONS" then Result.done (c1.AbortWithStatus 204) else next c1) ∧
      c1.Request = c.Request ∧ c1.index = c.index ∧ c1.now = c.now ∧
      c1.Writer.status = c.Writer.status ∧ c1.Writer.body = c.Writer.body ∧
      c1.Writer.header.Values "Access-Control-Allow-Origin" = some ["*"] ∧
      c1.Writer.header.Values "Access-Control-Allow-Methods" = some ["POST, OPTIONS, GET, PUT, DELETE"] := by
  refine ⟨_, fun next => rfl, rfl, rfl, rfl, rfl, rfl, ?_, ?_⟩
  · simp only [Context.SetHeader]
    rw [Header.Values_Set_ne _ _ _ _ (by decide), Header.Values_Set_ne _ _ _ _ (by decide),
      Header.Values_Set_ne _ _ _ _ (by decide), Header.Values_Set_self]
  · simp only [Context.SetHeader]
    rw [Header.Values_Set_self]

/-- C3: on an OPTIONS request the CORS middleware of initRouter ends with
status 204 and an aborted context, whatever the rest of the chain is, and
the loop of the chain then calls no further handler; on any other method
it hands over to the next handler, with status, body, position and
request as it found them, and returns what that handler returns. -/
theorem corsMiddleware_preflight_or_next (next : Context → Result) (c : Context) :
    (c.Request.Method = "OPTIONS" →
      ∃ c1, corsMiddleware next c = Result.done c1 ∧ c1.Writer.status = 204 ∧
        c1.IsAborted = true ∧
        (∀ next2, corsMiddleware next2 c = Result.done c1) ∧
        (∀ (hs : List HandlerFunc) (fuel : Nat), (hs.length : Int) ≤ abortIndex →
          0 ≤ c.index → hs[c.index.toNat]? = some corsMiddleware →
          Context.loop hs (fuel + 2) c = Result.done { c1 with index := abortIndex + 1 })) ∧
    (c.Request.Method ≠ "OPTIONS" →
      ∃ c1, corsMiddleware next c = next c1 ∧ (∀ next2, corsMiddleware next2 c = next2 c1) ∧
        c1.Writer.status = c.Writer.status ∧ c1.Writer.body = c.Writer.body ∧
        c1.index = c.index ∧ c1.Request = c.Request) := by
  obtain ⟨c1, heq, hreq, hidx, -, hst, hbody, -, -⟩ := corsMiddleware_cases c
  constructor
  · intro hm
    simp only [hm, if_true] at heq
    refine ⟨c1.AbortWithStatus 204, heq next, rfl, rfl, heq, ?_⟩
    intro hs fuel hlen hpos hget
    have hlt : c.index.toNat < hs.length := by
      rcases Nat.lt_or_ge c.index.toNat hs.length with h | h
      · exact h
      · rw [List.getElem?_eq_none h] at hget
        cases hget
    have hlen8 : int8 (hs.length : Int) = (hs.length : Int) := by
      unfold int8 abortIndex at *
      omega
    have hlt2 : c.index < int8 (hs.length : Int) := by rw [hlen8]; omega
    have hneg : ¬ (c.index < 0) := by omega
    have h64 : ¬ (abortIndex + 1 < int8 (hs.length : Int)) := by rw [hlen8]; omega
    have hwrap : int8 (abortIndex + 1) = abortIndex + 1 := by decide
    rw [Context.loop]
    simp only [hlt2, hneg, if_true, if_false, hget, heq]
    rw [Context.loop]
    simp [Context.AbortWithStatus, Context.Abort, Context.Status, Context.WriteHeaderNow, h64,
      hwrap]
  · intro hm
    simp only [hm, if_false] at heq
    exact ⟨c1, heq next, heq, hst, hbody, hidx, hreq⟩

/-- Witness for C3: an OPTIONS request in the chain of the CORS middleware
and the health handler, and a GET request handed to the health handler. -/
theorem corsMiddleware_preflight_or_next_witness :
    (∃ c1, corsMiddleware (healthHandler Result.done) { sampleContext "OPTIONS" with index := 0 } =
        Result.done c1 ∧
      c1.Writer.status = 204 ∧ c1.IsAborted = true ∧
      Context.loop [corsMiddleware, healthHandler] 2 { sampleContext "OPTIONS" with index := 0 } =
        Result.done { c1 with index := abortIndex + 1 }) ∧
    (∃ c1, corsMiddleware (healthHandler Result.done) (sampleContext "GET") =
        healthHandler Result.done c1 ∧ c1.Writer.status = 200) := by
  constructor
  · obtain ⟨c1, h1, h2, h3, -, h5⟩ :=
      (corsMiddleware_preflight_or_next (healthHandler Result.done)
        { sampleContext "OPTIONS" with index := 0 }).1 rfl
    exact ⟨c1, h1, h2, h3, h5 [corsMiddleware, healthHandler] 0 (by decide) (by decide) rfl⟩
  · obtain ⟨c1, h1, -, h2, -⟩ :=
      (corsMiddleware_preflight_or_next (healthHandler Result.done) (sampleContext "GET")).2 (by decide)
    exact ⟨c1, h1, h2⟩

/-- C4 as stated fails: on a GET request whose handler sets its own
Access-Control-Allow-Origin after the CORS middleware has passed control
on, the response carries that value and not the star. -/
theorem corsMiddleware_origin_overridden :
    ∃ r, corsMiddleware (overridingHandler Result.done) (sampleContext "GET") = Result.done r ∧
      r.Writer.header.Values "Access-Control-Allow-Origin" = some ["https://example.org"] ∧
      r.Writer.header.Values "Access-Control-Allow-Origin" ≠ some ["*"] :=
  ⟨_, rfl, by decide, by decide⟩

/-- C4 amended: whatever the request, the CORS middleware of initRouter
sets Access-Control-Allow-Origin to the single value * and
Access-Control-Allow-Methods to the single value POST, OPTIONS, GET, PUT,
DELETE before it aborts (OPTIONS) or calls the next handler (any other
method); the response to an OPTIONS request carries both; the response to
any other request carries both when the later handlers leave these two
headers alone. -/
theorem corsMiddleware_sets_cors_headers (next : Context → Result) (c : Context) :
    (∃ c1 : Context,
      c1.Writer.header.Values "Access-Control-Allow-Origin" = some ["*"] ∧
      c1.Writer.header.Values "Access-Control-Allow-Methods" = some ["POST, OPTIONS, GET, PUT, DELETE"] ∧
      (c.Request.Method = "OPTIONS" → corsMiddleware next c = Result.done (c1.AbortWithStatus 204)) ∧
      (c.Request.Method ≠ "OPTIONS" → corsMiddleware next c = next c1) ∧
      (c1.AbortWithStatus 204).Writer.header = c1.Writer.header) ∧
    (c.Request.Method = "OPTIONS" →
      ∃ r, corsMiddleware next c = Result.done r ∧
        r.Writer.header.Values "Access-Control-Allow-Origin" = some ["*"] ∧
        r.Writer.header.Values "Access-Control-Allow-Methods" = some ["POST, OPTIONS, GET, PUT, DELETE"]) ∧
    ((∀ d d1 key, next d = Result.done d1 → key = "Access-Control-Allow-Origin" ∨
          key = "Access-Control-Allow-Methods" →
          d1.Writer.header.Values key = d.Writer.header.Values key) →
      ∀ r, corsMiddleware next c = Result.done r →
        r.Writer.header.Values "Access-Control-Allow-Origin" = some ["*"] ∧
        r.Writer.header.Values "Access-Control-Allow-Methods" = some ["POST, OPTIONS, GET, PUT, DELETE"]) := by
  obtain ⟨c1, heq, -, -, -, -, -, ho, hm⟩ := corsMiddleware_cases c
  refine ⟨⟨c1, ho, hm, ?_, ?_, rfl⟩, ?_, ?_⟩
  · intro h
    rw [heq, if_pos h]
  · intro h
    rw [heq, if_neg h]
  · intro h
    exact ⟨c1.AbortWithStatus 204, by rw [heq, if_pos h], ho, hm⟩
  · intro hkeep r hr
    rw [heq] at hr
    by_cases h : c.Request.Method = "OPTIONS"
    · rw [if_pos h] at hr
      cases hr
      exact ⟨ho, hm⟩
    · rw [if_neg h] at hr
      exact ⟨(hkeep c1 r _ hr (Or.inl rfl)).trans ho, (hkeep c1 r _ hr (Or.inr rfl)).trans hm⟩

/-- Witness for C4 amended: an OPTIONS request, and a GET request with an
Origin header served by the health handler. -/
theorem corsMiddleware_sets_cors_headers_witness :
    (∃ r, corsMiddleware (healthHandler Result.done) (sampleContext "OPTIONS") = Result.done r ∧
      r.Writer.header.Values "Access-Control-Allow-Origin" = some ["*"] ∧
      r.Writer.header.Values "Access-Control-Allow-Methods" = some ["POST, OPTIONS, GET, PUT, DELETE"]) ∧
    (∃ r, corsMiddleware (healthHandler Result.done) (sampleContext "GET") = Result.done r ∧
      r.Writer.header.Values "Access-Control-Allow-Origin" = some ["*"] ∧
      r.Writer.header.Values "Access-Control-Allow-Methods" = some ["POST, OPTIONS, GET, PUT, DELETE"]) := by
  constructor
  · exact (corsMiddleware_sets_cors_headers (healthHandler Result.done)
      (sampleContext "OPTIONS")).2.1 rfl
  · refine ⟨_, rfl, ?_⟩
    refine (corsMiddleware_sets_cors_headers (healthHandler Result.done)
      (sampleContext "GET")).2.2 ?_ _ rfl
    intro d d1 key hd hkey
    simp only [healthHandler, Result.done.injEq] at hd
    subst hd
    simp only [Context.JSON, Context.Status]
    apply Header.Values_Set_ne
    rcases hkey with h | h <;> subst h <;> decide

/-! ## The RFC 3339 rendering of a clock reading -/

/-- One unfolding of the digit loop behind `Nat.repr`. -/
theorem toDigitsCore_step (fuel n : Nat) (ds : List Char) :
    Nat.toDigitsCore 10 (fuel + 1) n ds =
      if n / 10 = 0 then Nat.digitChar (n % 10) :: ds
      else Nat.toDigitsCore 10 fuel (n / 10) (Nat.digitChar (n % 10) :: ds) := by
  simp [Nat.toDigitsCore]

/-- The digit character of the library is the one of the RFC rendering. -/
theorem digitChar_mod (n : Nat) : Nat.digitChar (n % 10) = decimalDigit n := by
  have h : ∀ k : Nat, k < 10 → Nat.digitChar k = decimalDigit k := by
    intro k hk
    interval_cases k <;> rfl
  rw [h (n % 10) (Nat.mod_lt n (by decide))]
  simp [decimalDigit]

/-- The decimal digits of a number below 10000 are its last four digits
without the leading zeros. -/
theorem toDigits_four (n : Nat) (h : n < 10000) :
    Nat.toDigits 10 n =
      (fourDigits n).drop (if n < 10 then 3 else if n < 100 then 2 else if n < 1000 then 1 else 0) := by
  have d2 : n / 10 / 10 = n / 100 := by omega
  unfold Nat.toDigits fourDigits
  by_cases h1 : n < 10
  · have e1 : n / 10 = 0 := by omega
    simp only [toDigitsCore_step, h1, e1, digitChar_mod, if_true, List.drop]
  · by_cases h2 : n < 100
    · have e1 : n / 10 ≠ 0 := by omega
      have e2 : n / 10 / 10 = 0 := by omega
      rw [show n + 1 = (n - 1) + 1 + 1 by omega]
      simp only [toDigitsCore_step, h1, h2, e1, e2, digitChar_mod, if_true, if_false, List.drop]
    · by_cases h3 : n < 1000
      · have e1 : n / 10 ≠ 0 := by omega
        have e2 : n / 10 / 10 ≠ 0 := by omega
        have e3 : n / 10 / 10 / 10 = 0 := by omega
        have f2 : n / 100 ≠ 0 := by omega
        have f3 : n / 100 / 10 = 0 := by omega
        rw [show n + 1 = (n - 2) + 1 + 1 + 1 by omega]
        simp only [toDigitsCore_step, h1, h2, h3, e1, e2, e3, f2, f3, digitChar_mod, if_true,
          if_false, List.drop, d2]
      · have e1 : n / 10 ≠ 0 := by omega
        have e2 : n / 10 / 10 ≠ 0 := by omega
        have e3 : n / 10 / 10 / 10 ≠ 0 := by omega
        have e5 : n / 10 / 10 / 10 / 10 = 0 := by omega
        have f2 : n / 100 ≠ 0 := by omega
        have f3 : n / 100 / 10 ≠ 0 := by omega
        have f4 : n / 100 / 10 / 10 = 0 := by omega
        have f5 : n / 100 / 10 = n / 1000 := by omega
        rw [show n + 1 = (n - 3) + 1 + 1 + 1 + 1 by omega]
        simp only [toDigitsCore_step, h1, h2, h3, e1, e2, e3, e5, f2, f3, f4, digitChar_mod,
          if_true, if_false, List.drop, d2]
        rw [f5]

/-- A year from 0 to 9999 is written with exactly four digits. -/
theorem appendInt_four (n : Nat) (h : n < 10000) :
    appendInt (n : Int) 4 = String.mk (fourDigits n) := by
  unfold appendInt
  simp only [Int.natAbs_ofNat, Nat.repr, List.asString, toDigits_four n h]
  have hneg : ¬ ((n : Int) < 0) := by omega
  simp only [hneg, if_false]
  by_cases h1 : n < 10
  · have a1 : n / 1000 = 0 := by omega
    have a2 : n / 100 = 0 := by omega
    have a3 : n / 10 = 0 := by omega
    simp [h1, fourDigits, a1, a2, a3, String.ext_iff, decimalDigit]
  · by_cases h2 : n < 100
    · have a1 : n / 1000 = 0 := by omega
      have a2 : n / 100 = 0 := by omega
      simp [h1, h2, fourDigits, a1, a2, String.ext_iff, decimalDigit]
    · by_cases h3 : n < 1000
      · have a1 : n / 1000 = 0 := by omega
        simp [h1, h2, h3, fourDigits, a1, String.ext_iff, decimalDigit]
      · simp [h1, h2, h3, fourDigits, String.ext_iff]

set_option maxRecDepth 100000 in
/-- A number below 100 is written with exactly two digits. -/
theorem appendInt_two (n : Nat) (h : n < 100) :
    appendInt (n : Int) 2 = String.mk (twoDigits n) := by
  have key : ∀ k : Fin 100, appendInt (k.val : Int) 2 = String.mk (twoDigits k.val) := by decide
  exact key ⟨n, h⟩

/-- The zone element agrees with the RFC for offsets of whole minutes within a day. -/
theorem formatZone_eq (offset : Int) (h60 : offset % 60 = 0) (hlo : -86400 < offset)
    (hhi : offset < 86400) : formatZone offset = String.mk (rfc3339Offset offset) := by
  unfold formatZone rfc3339Offset
  by_cases h0 : offset = 0
  · simp [h0]
  · simp only [h0, if_false]
    obtain ⟨k, hk | hk⟩ := Int.eq_nat_or_neg offset
    · subst hk
      have hk60 : 60 ≤ k := by omega
      have hz : Int.tdiv (k : Int) 60 = ((k / 60 : Nat) : Int) := by
        rw [Int.tdiv_eq_ediv (by omega) (by omega)]
        omega
      have hz0 : ¬ (((k / 60 : Nat) : Int) < 0) := by omega
      have hk0 : ¬ ((k : Int) < 0) := by omega
      have hh : Int.tdiv ((k / 60 : Nat) : Int) 60 = ((k / 3600 : Nat) : Int) := by
        rw [Int.tdiv_eq_ediv (by omega) (by omega)]
        omega
      have hm : Int.tmod ((k / 60 : Nat) : Int) 60 = ((k / 60 % 60 : Nat) : Int) := by
        rw [Int.tmod_eq_emod (by omega) (by omega)]
        omega
      simp only [hz, hz0, hk0, if_false, hh, hm, Int.natAbs_ofNat]
      rw [appendInt_two _ (by omega), appendInt_two _ (by omega)]
      simp [String.ext_iff]
    · subst hk
      have hk60 : 60 ≤ k := by omega
      have hz : Int.tdiv (-(k : Int)) 60 = -((k / 60 : Nat) : Int) := by
        rw [Int.neg_tdiv, Int.tdiv_eq_ediv (by omega) (by omega)]
        omega
      have hz0 : -((k / 60 : Nat) : Int) < 0 := by omega
      have hk0 : -(k : Int) < 0 := by omega
      have hh : Int.tdiv ((k / 60 : Nat) : Int) 60 = ((k / 3600 : Nat) : Int) := by
        rw [Int.tdiv_eq_ediv (by omega) (by omega)]
        omega
      have hm : Int.tmod ((k / 60 : Nat) : Int) 60 = ((k / 60 % 60 : Nat) : Int) := by
        rw [Int.tmod_eq_emod (by omega) (by omega)]
        omega
      simp only [hz, hz0, hk0, if_true, neg_neg, hh, hm, Int.natAbs_neg, Int.natAbs_ofNat]
      rw [appendInt_two _ (by omega), appendInt_two _ (by omega)]
      simp [String.ext_iff]

/-- For a valid clock reading the formatter of package time produces the
RFC 3339 text. -/
theorem Time.FormatRFC3339_eq (t : Time) (h : t.Valid) : t.FormatRFC3339 = rfc3339DateTime t := by
  obtain ⟨y0, y1, m0, m1, d0, d1, hh, hm, hs, o60, olo, ohi⟩ := h
  have hy : appendInt t.year 4 = String.mk (fourDigits t.year.toNat) := by
    have e : t.year = ((t.year.toNat : Nat) : Int) := (Int.toNat_of_nonneg y0).symm
    conv_lhs => rw [e]
    exact appendInt_four _ (by omega)
  unfold Time.FormatRFC3339 rfc3339DateTime
  rw [formatZone_eq t.offset o60 olo ohi, hy,
    appendInt_two t.month (by omega), appendInt_two t.day (by omega),
    appendInt_two t.hour (by omega), appendInt_two t.minute (by omega),
    appendInt_two t.second (by omega)]
  simp [String.ext_iff]

/-! ## Routes and the recovery middleware -/

/-- Registering routes keeps the middleware and appends one route per
spec, each behind the middleware of the router. -/
theorem Engine.register_spec (routes : List RouteSpec) (r : Engine) :
    (r.register routes).Handlers = r.Handlers ∧
    (r.register routes).trees = r.trees ++ routes.map (fun s =>
      { Method := s.Method, Path := s.Path, Handlers := r.Handlers ++ s.Handlers }) := by
  induction routes generalizing r with
  | nil => simp [Engine.register]
  | cons s rest ih =>
    have h := ih (r.handle s.Method s.Path s.Handlers)
    simp only [Engine.register, List.foldl_cons] at h ⊢
    refine ⟨h.1, ?_⟩
    rw [h.2]
    simp [Engine.handle]

/-- The router main serves: the four middleware of initRouter, and the
health route followed by the routes of the four delivery constructors,
each behind those four middleware. -/
theorem wire_router (pkgs : Packages) (cfg : Config) (db : DB) :
    (wire pkgs cfg db).Handler.Handlers = [Recovery, pkgs.Logger, pkgs.Recovery, corsMiddleware] ∧
    (wire pkgs cfg db).Handler.trees =
      ({ Method := "GET", Path := "/health",
         Handlers := [Recovery, pkgs.Logger, pkgs.Recovery, corsMiddleware, healthHandler] } : RouteInfo) ::
      (pkgs.NewAssetHandler (initUsecases (initRepositories db)).Asset ++
        pkgs.NewCategoryHandler (initUsecases (initRepositories db)).Category ++
        pkgs.NewLocationHandler (initUsecases (initRepositories db)).Location ++
        pkgs.NewAuditLogHandler (initUsecases (initRepositories db)).AuditLog).map (fun s =>
          { Method := s.Method, Path := s.Path,
            Handlers := [Recovery, pkgs.Logger, pkgs.Recovery, corsMiddleware] ++ s.Handlers }) := by
  simp only [wire, Engine.register_spec, initRouter, New, Engine.Use, Engine.GET, Engine.handle]
  simp

/-- C5: whatever the context and the clock reading, the health handler
answers with status 200 and a JSON object whose keys are exactly status
and time, status being the string ok and time what Format(time.RFC3339)
gives for the clock reading; for every valid clock reading that text is
the RFC 3339 date-time of the reading; and it is the handler main
registers for GET /health. -/
theorem healthHandler_status_and_time (next : Context → Result) (c : Context)
    (pkgs : Packages) (cfg : Config) (db : DB) :
    (∃ c1 obj, healthHandler next c = Result.done c1 ∧ c1.Writer.status = 200 ∧
      c1.Writer.body = Body.json obj ∧ obj.map Prod.fst = ["status", "time"] ∧
      obj.lookup "status" = some (Value.str "ok") ∧
      obj.lookup "time" = some (Value.str c.now.FormatRFC3339) ∧
      c1.Writer.header.Values "Content-Type" = some ["application/json; charset=utf-8"]) ∧
    (∃ t, (wire pkgs cfg db).Handler.trees.head? = some t ∧ t.Method = "GET" ∧ t.Path = "/health" ∧
      t.Handlers.getLast? = some healthHandler) ∧
    (c.now.Valid →
      c.now.FormatRFC3339 = rfc3339DateTime c.now ∧
      ∃ c1, healthHandler next c = Result.done c1 ∧ c1.Writer.status = 200 ∧
        c1.Writer.body =
          Body.json [("status", Value.str "ok"), ("time", Value.str (rfc3339DateTime c.now))]) ∧
    sampleTime.FormatRFC3339 = "2024-01-02T03:04:05Z" := by
  refine ⟨⟨_, _, rfl, rfl, rfl, rfl, rfl, rfl, ?_⟩, ?_, ?_, by decide⟩
  · simp only [Context.JSON, Context.Status]
    exact Header.Values_Set_self _ _ _
  · rw [(wire_router pkgs cfg db).2]
    exact ⟨_, rfl, rfl, rfl, rfl⟩
  · intro hv
    refine ⟨Time.FormatRFC3339_eq _ hv, _, rfl, rfl, ?_⟩
    simp only [Context.JSON, Context.Status]
    rw [Time.FormatRFC3339_eq _ hv]

/-- Witness for C5: a clock reading in UTC and one in a zone west of it. -/
theorem healthHandler_status_and_time_witness :
    (∃ c1, healthHandler Result.done (sampleContext "GET") = Result.done c1 ∧
      c1.Writer.status = 200 ∧
      c1.Writer.body =
        Body.json [("status", Value.str "ok"), ("time", Value.str "2024-01-02T03:04:05Z")]) ∧
    (∃ c1, healthHandler Result.done { sampleContext "GET" with now := zonedTime } = Result.done c1 ∧
      c1.Writer.status = 200 ∧
      c1.Writer.body =
        Body.json [("status", Value.str "ok"), ("time", Value.str "0987-12-31T23:59:58-05:30")]) := by
  constructor
  · obtain ⟨-, c1, h1, h2, h3⟩ := (healthHandler_status_and_time Result.done (sampleContext "GET")
      samplePackages sampleConfig sampleDB).2.2.1 (by decide)
    exact ⟨c1, h1, h2, by rw [h3]; decide⟩
  · obtain ⟨-, c1, h1, h2, h3⟩ := (healthHandler_status_and_time Result.done
      { sampleContext "GET" with now := zonedTime } samplePackages sampleConfig sampleDB).2.2.1
      (by decide)
    exact ⟨c1, h1, h2, by rw [h3]; decide⟩

/-- When the loop of `Next` ends normally, the position is past the end of the chain. -/
theorem Context.loop_done_index (hs : List HandlerFunc) :
    ∀ (fuel : Nat) (c c1 : Context), Context.loop hs fuel c = Result.done c1 →
      ¬ (c1.index < int8 (hs.length : Int)) := by
  intro fuel
  induction fuel with
  | zero =>
    intro c c1 h
    simp [Context.loop] at h
  | succ n ih =>
    intro c c1 h
    rw [Context.loop] at h
    split at h
    · split at h
      · cases h
      · split at h
        · exact ih _ _ h
        · rename_i hr
          exact absurd h (hr c1)
    · rename_i hge
      cases h
      exact hge

/-- Past the end of the chain the loop returns the context unchanged. -/
theorem Context.loop_past_end_succ (hs : List HandlerFunc) (fuel : Nat) (c : Context)
    (h : ¬ (c.index < int8 (hs.length : Int))) :
    Context.loop hs (fuel + 1) c = Result.done c := by
  rw [Context.loop]; simp [h]

/-- A chain that starts with the recovery middleware, served from a fresh
context: a panic of the rest of the chain is recovered, the chain is
aborted, and the status becomes 500 unless the connection is broken or the
header is already written. -/
theorem Context.Next_Recovery (rest : List HandlerFunc) (c : Context) (hidx : c.index = -1)
    (hlen : (((Recovery :: rest).length : Nat) : Int) < abortIndex)
    (fuel : Nat) (c1 : Context) (v : PanicValue)
    (hp : Context.loop (Recovery :: rest) fuel { c with index := 1 } = Result.panicked c1 v) :
    Context.Next (Recovery :: rest) (fuel + 1) c =
      Result.done { (if v.brokenConnection = true then (c1.Error v.msg).Abort
        else if c1.Writer.written = true then c1.Abort
        else c1.AbortWithStatus 500) with index := abortIndex + 1 } := by
  have hlen8 : int8 (((Recovery :: rest).length : Nat) : Int) = (((Recovery :: rest).length : Nat) : Int) := by
    unfold int8 abortIndex at *
    omega
  have h0 : int8 ((-1 : Int) + 1) = 0 := by decide
  have h1 : int8 ((0 : Int) + 1) = 1 := by decide
  have h64 : int8 (abortIndex + 1) = abortIndex + 1 := by decide
  have hpos : (0 : Int) < int8 (((Recovery :: rest).length : Nat) : Int) := by
    rw [hlen8]
    simp only [List.length_cons]
    omega
  have hpast : ∀ (n : Nat) (d : Context), d.index = abortIndex + 1 →
      Context.loop (Recovery :: rest) (n + 1) d = Result.done d := by
    intro n d hd
    apply Context.loop_past_end_succ
    rw [hlen8, hd]
    omega
  obtain ⟨n, hn⟩ : ∃ n, fuel = n + 1 := by
    cases fuel with
    | zero => simp [Context.loop] at hp
    | succ n => exact ⟨n, rfl⟩
  simp only [Context.Next, hidx, h0]
  rw [Context.loop]
  simp only [hpos, if_true, lt_irrefl, if_false, Int.toNat_zero, List.getElem?_cons_zero, Recovery,
    h1, hp]
  by_cases hb : v.brokenConnection = true
  · simp only [hb, if_true, Context.Abort, Context.Error, h64]
    rw [hn]
    exact hpast n _ rfl
  · by_cases hw : c1.Writer.written = true
    · simp only [hb, hw, if_true, if_false, Context.Abort, h64]
      rw [hn]
      exact hpast n _ rfl
    · simp only [hb, hw, if_false, Context.AbortWithStatus, Context.Abort, Context.Status,
        Context.WriteHeaderNow, h64]
      rw [hn]
      exact hpast n _ rfl

/-- C8 as stated fails: behind the recovery middleware of the router main
builds, a handler that panics on a broken connection and a handler that
panics after writing its answer are recovered, but the response keeps
status 200 and is no server error. -/
theorem recovery_without_server_error :
    (∃ t c2, (wire samplePackages sampleConfig sampleDB).Handler.trees[2]? = some t ∧
      t.Path = "/api/v1/categories" ∧
      Context.Next t.Handlers 6
        (newContext { Method := "GET", Path := "/api/v1/categories", Header := [] } sampleTime) =
          Result.done c2 ∧
      c2.Writer.status = 200) ∧
    (∃ t c2, (wire samplePackages sampleConfig sampleDB).Handler.trees[3]? = some t ∧
      t.Path = "/api/v1/locations" ∧
      Context.Next t.Handlers 6
        (newContext { Method := "GET", Path := "/api/v1/locations", Header := [] } sampleTime) =
          Result.done c2 ∧
      c2.Writer.status = 200) :=
  ⟨⟨_, _, rfl, rfl, rfl, rfl⟩, ⟨_, _, rfl, rfl, rfl, rfl⟩⟩

/-- C8 amended: the recovery middleware of gin is the first handler of the
router initRouter returns, before the logger, the custom recovery and the
CORS middleware; every route main registers (the health route and the
routes of the asset, category, location and audit-log handlers) is served
by a chain that starts with these four; in such a chain, and in the chain
of the middleware alone, within gin's limit on chain length, a panic of
any later middleware or handler is recovered and the chain aborted instead
of the panic going on; the response gets status 500 when the panic is not
a broken connection and the response header is not yet written, and keeps
the status it has otherwise. -/
theorem recovery_is_outermost (pkgs : Packages) (cfg : Config) (db : DB) :
    (initRouter pkgs.Logger pkgs.Recovery).Handlers =
      [Recovery, pkgs.Logger, pkgs.Recovery, corsMiddleware] ∧
    (wire pkgs cfg db).Handler.Handlers = [Recovery, pkgs.Logger, pkgs.Recovery, corsMiddleware] ∧
    (wire pkgs cfg db).Handler.trees.map (fun t => (t.Method, t.Path)) =
      ("GET", "/health") ::
        (pkgs.NewAssetHandler (initUsecases (initRepositories db)).Asset ++
          pkgs.NewCategoryHandler (initUsecases (initRepositories db)).Category ++
          pkgs.NewLocationHandler (initUsecases (initRepositories db)).Location ++
          pkgs.NewAuditLogHandler (initUsecases (initRepositories db)).AuditLog).map
            (fun s => (s.Method, s.Path)) ∧
    (∀ t ∈ (wire pkgs cfg db).Handler.trees, ∃ rest,
      t.Handlers = Recovery :: pkgs.Logger :: pkgs.Recovery :: corsMiddleware :: rest) ∧
    (∀ chain : List HandlerFunc,
      (chain = (wire pkgs cfg db).Handler.Handlers ∨
        ∃ t ∈ (wire pkgs cfg db).Handler.trees, chain = t.Handlers) →
      (chain.length : Int) < abortIndex →
      ∀ (c : Context) (fuel : Nat) (c1 : Context) (v : PanicValue), c.index = -1 →
        Context.loop chain fuel { c with index := 1 } = Result.panicked c1 v →
        ∃ c2, Context.Next chain (fuel + 1) c = Result.done c2 ∧ c2.IsAborted = true ∧
          (v.brokenConnection = false → c1.Writer.written = false →
            c2.Writer.status = 500 ∧ c2.Writer.written = true) ∧
          (v.brokenConnection = true ∨ c1.Writer.written = true →
            c2.Writer.status = c1.Writer.status)) := by
  have hchains : ∀ t ∈ (wire pkgs cfg db).Handler.trees, ∃ rest,
      t.Handlers = Recovery :: pkgs.Logger :: pkgs.Recovery :: corsMiddleware :: rest := by
    intro t ht
    rw [(wire_router pkgs cfg db).2] at ht
    rcases List.mem_cons.1 ht with h | h
    · exact ⟨[healthHandler], by rw [h]⟩
    · obtain ⟨s, -, hs⟩ := List.mem_map.1 h
      exact ⟨s.Handlers, by rw [← hs]; rfl⟩
  refine ⟨rfl, (wire_router pkgs cfg db).1, ?_, hchains, ?_⟩
  · rw [(wire_router pkgs cfg db).2]
    simp [Function.comp_def]
  · intro chain hchain hlimit c fuel c1 v hidx hp
    have hrec : ∃ rest, chain = Recovery :: rest := by
      rcases hchain with h | ⟨t, ht, h⟩
      · exact ⟨_, h.trans (wire_router pkgs cfg db).1⟩
      · obtain ⟨rest, hrest⟩ := hchains t ht
        exact ⟨_, h.trans hrest⟩
    obtain ⟨rest, hrest⟩ := hrec
    subst hrest
    refine ⟨_, Context.Next_Recovery rest c hidx hlimit fuel c1 v hp, rfl, ?_, ?_⟩
    · intro hb hw
      simp [hb, hw, Context.AbortWithStatus, Context.Abort, Context.Status, Context.WriteHeaderNow]
    · intro h
      rcases h with hb | hw
      · simp [hb, Context.Abort, Context.Error]
      · by_cases hb : v.brokenConnection = true
        · simp [hb, Context.Abort, Context.Error]
        · simp [hb, hw, Context.Abort]

/-- Witness for C8 amended: a route whose handler panics before anything is
written, behind pass-through logger and custom recovery, answers 500. -/
theorem recovery_is_outermost_witness :
    ∃ c2, Context.Next
        [Recovery, samplePackages.Logger, samplePackages.Recovery, corsMiddleware, panickingHandler] 6
        (newContext { Method := "GET", Path := "/api/v1/assets", Header := [] } sampleTime) =
          Result.done c2 ∧
      c2.IsAborted = true ∧ c2.Writer.status = 500 ∧ c2.Writer.written = true := by
  have hmem : ∃ t ∈ (wire samplePackages sampleConfig sampleDB).Handler.trees,
      [Recovery, samplePackages.Logger, samplePackages.Recovery, corsMiddleware, panickingHandler] =
        t.Handlers := by
    rw [(wire_router samplePackages sampleConfig sampleDB).2]
    exact ⟨_, List.mem_cons_of_mem _ (List.mem_cons_self _ _), rfl⟩
  obtain ⟨c2, h1, h2, h3, -⟩ := (recovery_is_outermost samplePackages sampleConfig sampleDB).2.2.2.2
    [Recovery, samplePackages.Logger, samplePackages.Recovery, corsMiddleware, panickingHandler]
    (Or.inr hmem) (by decide)
    (newContext { Method := "GET", Path := "/api/v1/assets", Header := [] } sampleTime) 5 _
    { msg := "boom", brokenConnection := false } rfl rfl
  exact ⟨c2, h1, h2, (h3 rfl rfl).1, (h3 rfl rfl).2⟩

/-! ## Startup and shutdown -/

/-- Sequencing, applied to an event list. -/
theorem Proc.bind_apply {α β : Type} (m : Proc α) (f : α → Proc β) (t : List Event) :
    (m >>= f) t = match m t with
      | (t1, Step.ok a) => f a t1
      | (t1, Step.stop e) => (t1, Step.stop e) := rfl

/-- Returning a value adds no event. -/
theorem Proc.pure_apply {α : Type} (a : α) (t : List Event) :
    (pure a : Proc α) t = (t, Step.ok a) := rfl

/-- Recording an event appends it. -/
theorem emit_apply (e : Event) (t : List Event) : emit e t = (t ++ [e], Step.ok ()) := rfl

/-- A fatal log line is the last event of the process. -/
theorem Fatal_apply {α : Type} (msg : String) (t : List Event) :
    (Fatal msg : Proc α) t = (t ++ [Event.fatal msg], Step.stop (Exit.fatal msg)) := rfl

/-- Ending the process adds no event. -/
theorem halt_apply {α : Type} (e : Exit) (t : List Event) :
    (halt e : Proc α) t = (t, Step.stop e) := rfl

/-- What initDB does in each of the three cases. -/
theorem initDB_cases (env : Env) (cfg : Config) (t : List Event) :
    initDB env cfg t =
      match env.dbOpen cfg.Database.GetDSN with
      | some _ => (t ++ [Event.dbOpen cfg.Database.GetDSN, Event.fatal "Failed to connect to database"],
          Step.stop (Exit.fatal "Failed to connect to database"))
      | none =>
        match env.autoMigrate { dsn := cfg.Database.GetDSN } migratedModels with
        | some _ => (t ++ [Event.dbOpen cfg.Database.GetDSN, Event.autoMigrate migratedModels,
              Event.fatal "Failed to migrate database"],
            Step.stop (Exit.fatal "Failed to migrate database"))
        | none => (t ++ [Event.dbOpen cfg.Database.GetDSN, Event.autoMigrate migratedModels],
            Step.ok { dsn := cfg.Database.GetDSN }) := by
  unfold initDB
  cases h1 : env.dbOpen cfg.Database.GetDSN with
  | some e => simp [Proc.bind_apply, emit_apply, Fatal_apply, h1]
  | none =>
    cases h2 : env.autoMigrate { dsn := cfg.Database.GetDSN } migratedModels with
    | some e => simp [Proc.bind_apply, emit_apply, Fatal_apply, Proc.pure_apply, h1, h2]
    | none => simp [Proc.bind_apply, emit_apply, Fatal_apply, Proc.pure_apply, h1, h2]

/-- What the main goroutine does, branch by branch. -/
theorem run_cases (pkgs : Packages) (env : Env) :
    run pkgs env =
      match env.loadConfig with
      | Except.error _ =>
        ([Event.loadConfig, Event.fatal "Failed to load configuration:"],
          Step.stop (Exit.fatal "Failed to load configuration:"))
      | Except.ok cfg =>
        match env.newLogger with
        | some _ =>
          ([Event.loadConfig, Event.newLogger, Event.fatal "Failed to initialize logger:"],
            Step.stop (Exit.fatal "Failed to initialize logger:"))
        | none =>
          if validMode cfg.Server.Mode = true then
            match initDB env cfg [Event.loadConfig, Event.newLogger, Event.setMode cfg.Server.Mode] with
            | (t, Step.stop e) => (t, Step.stop e)
            | (t, Step.ok _) =>
              match env.signal with
              | none =>
                (t ++ [Event.newRouter, Event.newServer (":" ++ cfg.Server.Port), Event.newRepositories,
                  Event.newUsecases, Event.route "GET" "/health", Event.newHandler "Asset",
                  Event.newHandler "Category", Event.newHandler "Location", Event.newHandler "AuditLog",
                  Event.goListenAndServe (":" ++ cfg.Server.Port),
                  Event.notify [Signal.SIGINT, Signal.SIGTERM]], Step.stop Exit.blocked)
              | some sig =>
                if sig = Signal.SIGINT ∨ sig = Signal.SIGTERM then
                  match env.shutdown (env.now + shutdownTimeout) with
                  | some _ =>
                    (t ++ [Event.newRouter, Event.newServer (":" ++ cfg.Server.Port), Event.newRepositories,
                      Event.newUsecases, Event.route "GET" "/health", Event.newHandler "Asset",
                      Event.newHandler "Category", Event.newHandler "Location", Event.newHandler "AuditLog",
                      Event.goListenAndServe (":" ++ cfg.Server.Port),
                      Event.notify [Signal.SIGINT, Signal.SIGTERM], Event.received sig,
                      Event.info "Shutting down server...",
                      Event.withTimeout shutdownTimeout (env.now + shutdownTimeout),
                      Event.shutdown (env.now + shutdownTimeout),
                      Event.fatal "Server forced to shutdown:"],
                      Step.stop (Exit.fatal "Server forced to shutdown:"))
                  | none =>
                    (t ++ [Event.newRouter, Event.newServer (":" ++ cfg.Server.Port), Event.newRepositories,
                      Event.newUsecases, Event.route "GET" "/health", Event.newHandler "Asset",
                      Event.newHandler "Category", Event.newHandler "Location", Event.newHandler "AuditLog",
                      Event.goListenAndServe (":" ++ cfg.Server.Port),
                      Event.notify [Signal.SIGINT, Signal.SIGTERM], Event.received sig,
                      Event.info "Shutting down server...",
                      Event.withTimeout shutdownTimeout (env.now + shutdownTimeout),
                      Event.shutdown (env.now + shutdownTimeout),
                      Event.info "Server exiting", Event.cancel, Event.loggerSync], Step.ok ())
                else
                  (t ++ [Event.newRouter, Event.newServer (":" ++ cfg.Server.Port), Event.newRepositories,
                    Event.newUsecases, Event.route "GET" "/health", Event.newHandler "Asset",
                    Event.newHandler "Category", Event.newHandler "Location", Event.newHandler "AuditLog",
                    Event.goListenAndServe (":" ++ cfg.Server.Port),
                    Event.notify [Signal.SIGINT, Signal.SIGTERM]],
                    Step.stop (if sig = Signal.SIGUSR1 then Exit.blocked else Exit.killed sig))
          else
            ([Event.loadConfig, Event.newLogger, Event.setMode cfg.Server.Mode, Event.loggerSync],
              Step.stop (Exit.panicked ("gin mode unknown: " ++ cfg.Server.Mode))) := by
  unfold run main
  cases h1 : env.loadConfig with
  | error e => simp [Proc.bind_apply, emit_apply, Fatal_apply, h1]
  | ok cfg =>
    cases h2 : env.newLogger with
    | some e => simp [Proc.bind_apply, emit_apply, Fatal_apply, Proc.pure_apply, h1, h2]
    | none =>
      by_cases h3 : validMode cfg.Server.Mode = true
      · rcases h4 : initDB env cfg [Event.loadConfig, Event.newLogger, Event.setMode cfg.Server.Mode]
          with ⟨t, r⟩
        cases r with
        | stop e =>
          simp [Proc.bind_apply, emit_apply, Fatal_apply, Proc.pure_apply, h1, h2, h3, h4]
        | ok db =>
          cases h5 : env.signal with
          | none =>
            simp [Proc.bind_apply, emit_apply, Fatal_apply, Proc.pure_apply, halt_apply, h1, h2, h3,
              h4, h5, wire, initServer]
          | some sig =>
            by_cases h6 : sig = Signal.SIGINT ∨ sig = Signal.SIGTERM
            · cases h7 : env.shutdown (env.now + shutdownTimeout) with
              | some e =>
                simp [Proc.bind_apply, emit_apply, Fatal_apply, Proc.pure_apply, halt_apply, h1, h2,
                  h3, h4, h5, h6, h7, wire, initServer]
              | none =>
                simp [Proc.bind_apply, emit_apply, Fatal_apply, Proc.pure_apply, halt_apply, h1, h2,
                  h3, h4, h5, h6, h7, wire, initServer]
            · by_cases h7 : sig = Signal.SIGUSR1
              · simp [Proc.bind_apply, emit_apply, Fatal_apply, Proc.pure_apply, halt_apply, h1, h2,
                  h3, h4, h5, h7, wire, initServer]
              · simp [Proc.bind_apply, emit_apply, Fatal_apply, Proc.pure_apply, halt_apply, h1, h2,
                  h3, h4, h5, h6, h7, wire, initServer]
      · simp [Proc.bind_apply, emit_apply, Fatal_apply, Proc.pure_apply, halt_apply, h1, h2, h3]

/-- C6: initDB returns a handle exactly when both the connection and the
migration succeed; when the connection fails it ends the process with a
fatal log line and no migration is requested; when the migration fails it
ends the process with a fatal log line; and in main, after either
failure, the process ends without any router, server, repository, usecase
or handler having been built. -/
theorem initDB_returns_iff_both_succeed (pkgs : Packages) (env : Env) (cfg : Config)
    (t : List Event) :
    ((∃ db, (initDB env cfg t).2 = Step.ok db) ↔
      (env.dbOpen cfg.Database.GetDSN = none ∧
        env.autoMigrate { dsn := cfg.Database.GetDSN } migratedModels = none)) ∧
    (env.dbOpen cfg.Database.GetDSN ≠ none →
      initDB env cfg t =
        (t ++ [Event.dbOpen cfg.Database.GetDSN, Event.fatal "Failed to connect to database"],
          Step.stop (Exit.fatal "Failed to connect to database"))) ∧
    (env.dbOpen cfg.Database.GetDSN = none →
      env.autoMigrate { dsn := cfg.Database.GetDSN } migratedModels ≠ none →
      initDB env cfg t =
        (t ++ [Event.dbOpen cfg.Database.GetDSN, Event.autoMigrate migratedModels,
            Event.fatal "Failed to migrate database"],
          Step.stop (Exit.fatal "Failed to migrate database"))) ∧
    (env.loadConfig = Except.ok cfg →
      (env.dbOpen cfg.Database.GetDSN ≠ none ∨
        env.autoMigrate { dsn := cfg.Database.GetDSN } migratedModels ≠ none) →
      (∃ msg, (run pkgs env).2 = Step.stop (Exit.fatal msg) ∨
        (run pkgs env).2 = Step.stop (Exit.panicked msg)) ∧
      ∀ ev ∈ (run pkgs env).1, ev.isConstruction = false) := by
  refine ⟨?_, ?_, ?_, ?_⟩
  · rw [initDB_cases]
    cases h1 : env.dbOpen cfg.Database.GetDSN with
    | some e => simp
    | none =>
      cases h2 : env.autoMigrate { dsn := cfg.Database.GetDSN } migratedModels with
      | some e => simp
      | none => simp
  · intro h
    rw [initDB_cases]
    cases h1 : env.dbOpen cfg.Database.GetDSN with
    | some e => rfl
    | none => exact absurd h1 h
  · intro h1 h
    rw [initDB_cases, h1]
    cases h2 : env.autoMigrate { dsn := cfg.Database.GetDSN } migratedModels with
    | some e => rfl
    | none => exact absurd h2 h
  · intro hcfg hfail
    rw [run_cases, hcfg]
    cases h2 : env.newLogger with
    | some e =>
      refine ⟨⟨_, Or.inl rfl⟩, ?_⟩
      intro ev hev
      simp at hev
      rcases hev with h | h | h <;> subst h <;> rfl
    | none =>
      by_cases h3 : validMode cfg.Server.Mode = true
      · simp only [h3, if_true]
        rw [initDB_cases]
        cases h4 : env.dbOpen cfg.Database.GetDSN with
        | some e =>
          refine ⟨⟨_, Or.inl rfl⟩, ?_⟩
          intro ev hev
          simp at hev
          rcases hev with h | h | h | h | h <;> subst h <;> rfl
        | none =>
          cases h5 : env.autoMigrate { dsn := cfg.Database.GetDSN } migratedModels with
          | some e =>
            refine ⟨⟨_, Or.inl rfl⟩, ?_⟩
            intro ev hev
            simp at hev
            rcases hev with h | h | h | h | h | h <;> subst h <;> rfl
          | none =>
            rcases hfail with h | h
            · exact absurd h4 h
            · exact absurd h5 h
      · simp only [h3]
        refine ⟨⟨_, Or.inr rfl⟩, ?_⟩
        intro ev hev
        simp at hev
        rcases hev with h | h | h | h <;> subst h <;> rfl

/-- Witness for C6: the database cannot be reached. -/
theorem initDB_returns_iff_both_succeed_witness :
    run samplePackages unreachableEnv =
      ([Event.loadConfig, Event.newLogger, Event.setMode "release",
        Event.dbOpen "host=localhost dbname=inventory", Event.fatal "Failed to connect to database"],
        Step.stop (Exit.fatal "Failed to connect to database")) ∧
    ((∃ msg, (run samplePackages unreachableEnv).2 = Step.stop (Exit.fatal msg) ∨
        (run samplePackages unreachableEnv).2 = Step.stop (Exit.panicked msg)) ∧
      ∀ ev ∈ (run samplePackages unreachableEnv).1, ev.isConstruction = false) :=
  ⟨by decide, (initDB_returns_iff_both_succeed samplePackages unreachableEnv sampleConfig []).2.2.2 rfl
    (Or.inl (by simp [unreachableEnv]))⟩

/-- C9: when the connection succeeds, initDB requests one migration, of
Asset, AssetCategory, Location and AuditLog in this order and of nothing
else; this is more than the Asset and AssetCategory its doc comment names. -/
theorem initDB_migrates_four_models (env : Env) (cfg : Config) (t : List Event)
    (hopen : env.dbOpen cfg.Database.GetDSN = none) :
    (initDB env cfg t).1.filterMap (fun e => match e with
        | Event.autoMigrate ms => some ms
        | _ => none) =
      t.filterMap (fun e => match e with
        | Event.autoMigrate ms => some ms
        | _ => none) ++ [[Model.Asset, Model.AssetCategory, Model.Location, Model.AuditLog]] ∧
    migratedModels ≠ [Model.Asset, Model.AssetCategory] ∧
    Model.Location ∈ migratedModels ∧ Model.AuditLog ∈ migratedModels := by
  refine ⟨?_, by decide, by decide, by decide⟩
  rw [initDB_cases, hopen]
  cases h2 : env.autoMigrate { dsn := cfg.Database.GetDSN } migratedModels with
  | some e => simp [List.filterMap_append, migratedModels]
  | none => simp [List.filterMap_append, migratedModels]

/-- Witness for C9: a run in which the connection and the migration succeed. -/
theorem initDB_migrates_four_models_witness :
    (initDB sampleEnv sampleConfig []).1.filterMap (fun e => match e with
        | Event.autoMigrate ms => some ms
        | _ => none) = [[Model.Asset, Model.AssetCategory, Model.Location, Model.AuditLog]] :=
  (initDB_migrates_four_models sampleEnv sampleConfig [] rfl).1

/-- C10: the server initServer returns has the given router as handler,
the address made of a colon and the configured port, a read and a write
timeout of 15 seconds and an idle timeout of 60 seconds, whatever the
configuration. -/
theorem initServer_fields (cfg : Config) (router : Engine) :
    (initServer cfg router).Handler = router ∧
    (initServer cfg router).Addr = ":" ++ cfg.Server.Port ∧
    (initServer cfg router).ReadTimeout = 15 * Second ∧
    (initServer cfg router).WriteTimeout = 15 * Second ∧
    (initServer cfg router).IdleTimeout = 60 * Second ∧
    (15 * Second = 15000000000 ∧ 60 * Second = 60000000000) ∧
    (∀ cfg2 router2, (initServer cfg2 router2).ReadTimeout = (initServer cfg router).ReadTimeout ∧
      (initServer cfg2 router2).WriteTimeout = (initServer cfg router).WriteTimeout ∧
      (initServer cfg2 router2).IdleTimeout = (initServer cfg router).IdleTimeout) :=
  ⟨rfl, rfl, rfl, rfl, rfl, ⟨by decide, by decide⟩, fun _ _ => ⟨rfl, rfl, rfl⟩⟩

/-- C7: in main a shutdown is requested only after SIGINT or SIGTERM has
been received; the context passed to Shutdown has its deadline 15 seconds
after the clock reading taken when the context is created, right after
the signal; if Shutdown returns an error the process ends with a fatal log
line, otherwise it logs Server exiting and main returns; and once startup
has succeeded, either signal does lead to that shutdown. -/
theorem main_shutdown_after_signal (pkgs : Packages) (env : Env) :
    (∀ d, Event.shutdown d ∈ (run pkgs env).1 →
      ∃ sig pre post, (sig = Signal.SIGINT ∨ sig = Signal.SIGTERM) ∧ env.signal = some sig ∧
        (run pkgs env).1 = pre ++ [Event.received sig, Event.info "Shutting down server...",
          Event.withTimeout (15 * Second) (env.now + 15 * Second),
          Event.shutdown (env.now + 15 * Second)] ++ post ∧
        d = env.now + 15 * Second ∧
        (∀ d2, Event.shutdown d2 ∉ pre) ∧ (∀ d2, Event.shutdown d2 ∉ post) ∧
        ((env.shutdown (env.now + 15 * Second) ≠ none ∧
            post = [Event.fatal "Server forced to shutdown:"] ∧
            (run pkgs env).2 = Step.stop (Exit.fatal "Server forced to shutdown:")) ∨
          (env.shutdown (env.now + 15 * Second) = none ∧
            post = [Event.info "Server exiting", Event.cancel, Event.loggerSync] ∧
            (run pkgs env).2 = Step.ok ()))) ∧
    (∀ cfg sig, env.loadConfig = Except.ok cfg → env.newLogger = none →
      validMode cfg.Server.Mode = true → env.dbOpen cfg.Database.GetDSN = none →
      env.autoMigrate { dsn := cfg.Database.GetDSN } migratedModels = none →
      env.signal = some sig → (sig = Signal.SIGINT ∨ sig = Signal.SIGTERM) →
      Event.shutdown (env.now + 15 * Second) ∈ (run pkgs env).1) ∧
    15 * Second = 15000000000 := by
  refine ⟨?_, ?_, by decide⟩
  · intro d hd
    rw [run_cases] at hd ⊢
    cases h1 : env.loadConfig with
    | error e => simp [h1] at hd
    | ok cfg =>
      simp only [h1] at hd ⊢
      cases h2 : env.newLogger with
      | some e => simp [h2] at hd
      | none =>
        simp only [h2] at hd ⊢
        by_cases h3 : validMode cfg.Server.Mode = true
        · simp only [h3, if_true] at hd ⊢
          rw [initDB_cases] at hd ⊢
          cases h4 : env.dbOpen cfg.Database.GetDSN with
          | some e => simp [h4] at hd
          | none =>
            simp only [h4] at hd ⊢
            cases h5 : env.autoMigrate { dsn := cfg.Database.GetDSN } migratedModels with
            | some e => simp [h5] at hd
            | none =>
              simp only [h5] at hd ⊢
              cases h6 : env.signal with
              | none => simp [h6] at hd
              | some sig =>
                simp only [h6] at hd ⊢
                by_cases h7 : sig = Signal.SIGINT ∨ sig = Signal.SIGTERM
                · simp only [h7, if_true] at hd ⊢
                  cases h8 : env.shutdown (env.now + shutdownTimeout) with
                  | some e =>
                    simp only [h8] at hd ⊢
                    refine ⟨sig, [Event.loadConfig, Event.newLogger, Event.setMode cfg.Server.Mode,
                      Event.dbOpen cfg.Database.GetDSN, Event.autoMigrate migratedModels,
                      Event.newRouter, Event.newServer (":" ++ cfg.Server.Port), Event.newRepositories,
                      Event.newUsecases, Event.route "GET" "/health", Event.newHandler "Asset",
                      Event.newHandler "Category", Event.newHandler "Location",
                      Event.newHandler "AuditLog", Event.goListenAndServe (":" ++ cfg.Server.Port),
                      Event.notify [Signal.SIGINT, Signal.SIGTERM]],
                      [Event.fatal "Server forced to shutdown:"], h7, rfl, ?_, ?_, ?_, ?_, ?_⟩
                    · simp [shutdownTimeout]
                    · simpa [shutdownTimeout] using hd
                    · simp
                    · simp
                    · left
                      have h9 : env.shutdown (env.now + 15 * Second) = some e := h8
                      simp [h9]
                  | none =>
                    simp only [h8] at hd ⊢
                    refine ⟨sig, [Event.loadConfig, Event.newLogger, Event.setMode cfg.Server.Mode,
                      Event.dbOpen cfg.Database.GetDSN, Event.autoMigrate migratedModels,
                      Event.newRouter, Event.newServer (":" ++ cfg.Server.Port), Event.newRepositories,
                      Event.newUsecases, Event.route "GET" "/health", Event.newHandler "Asset",
                      Event.newHandler "Category", Event.newHandler "Location",
                      Event.newHandler "AuditLog", Event.goListenAndServe (":" ++ cfg.Server.Port),
                      Event.notify [Signal.SIGINT, Signal.SIGTERM]],
                      [Event.info "Server exiting", Event.cancel, Event.loggerSync],
                      h7, rfl, ?_, ?_, ?_, ?_, ?_⟩
                    · simp [shutdownTimeout]
                    · simpa [shutdownTimeout] using hd
                    · simp
                    · simp
                    · right
                      have h9 : env.shutdown (env.now + 15 * Second) = none := h8
                      simp [h9]
                · simp [h7] at hd
        · simp [h3] at hd
  · intro cfg sig h1 h2 h3 h4 h5 h6 h7
    rw [run_cases, h1]
    simp only [h2, h3, if_true]
    rw [initDB_cases, h4]
    simp only [h5, h6, h7, if_true]
    cases h8 : env.shutdown (env.now + shutdownTimeout) with
    | some e => simp [shutdownTimeout]
    | none => simp [shutdownTimeout]

/-- Witness for C7: startup succeeds, SIGTERM arrives at clock reading 1000
and the server shuts down in time. -/
theorem main_shutdown_after_signal_witness :
    Event.shutdown 15000001000 ∈ (run samplePackages sampleEnv).1 ∧
    (run samplePackages sampleEnv).2 = Step.ok () ∧
    (run samplePackages sampleEnv).1.drop 16 =
      [Event.received Signal.SIGTERM, Event.info "Shutting down server...",
        Event.withTimeout 15000000000 15000001000, Event.shutdown 15000001000,
        Event.info "Server exiting", Event.cancel, Event.loggerSync] :=
  ⟨(main_shutdown_after_signal samplePackages sampleEnv).2.1 sampleConfig Signal.SIGTERM rfl rfl
      rfl rfl rfl rfl (Or.inr rfl), by decide, by decide⟩

/-! ## Wiring of the usecases and the audit trail -/

/-- C1 as stated fails: for the repositories built on the sample database
it is not the case that all three entity usecases have the audit-log
usecase as collaborator; the category and the location usecase have none. -/
theorem initUsecases_not_all_audited :
    ¬ ((initUsecases (initRepositories sampleDB)).Asset.auditCollaborator =
          some (NewAuditLogUsecase (initRepositories sampleDB).auditLog) ∧
        (initUsecases (initRepositories sampleDB)).Category.auditCollaborator =
          some (NewAuditLogUsecase (initRepositories sampleDB).auditLog) ∧
        (initUsecases (initRepositories sampleDB)).Location.auditCollaborator =
          some (NewAuditLogUsecase (initRepositories sampleDB).auditLog)) := by
  decide

/-- C1 amended: for every repositories value, initUsecases builds the
audit-log usecase from repos.auditLog and passes it to the asset usecase
as its collaborator, and only to it: the category usecase is built from
repos.category alone and the location usecase from repos.location alone,
neither has an audit collaborator, and neither changes when the audit
repository does. -/
theorem initUsecases_wiring (repos : repositories) :
    (initUsecases repos).AuditLog = NewAuditLogUsecase repos.auditLog ∧
    (initUsecases repos).Asset =
      NewAssetUsecase repos.asset repos.category repos.location (NewAuditLogUsecase repos.auditLog) ∧
    (initUsecases repos).Asset.auditCollaborator = some (initUsecases repos).AuditLog ∧
    (initUsecases repos).Category = NewAssetCategoryUsecase repos.category ∧
    (initUsecases repos).Category.auditCollaborator = none ∧
    (initUsecases repos).Location = NewLocationUseCase repos.location ∧
    (initUsecases repos).Location.auditCollaborator = none ∧
    (∀ other : AuditLogRepository,
      (initUsecases { repos with auditLog := other }).Category = (initUsecases repos).Category ∧
      (initUsecases { repos with auditLog := other }).Location = (initUsecases repos).Location) :=
  ⟨rfl, rfl, rfl, rfl, rfl, rfl, rfl, fun _ => ⟨rfl, rfl⟩⟩

/-- A successful repository mutation adds one entity write at the end of the
journal and leaves the audit store as writable as it was. -/
theorem Storage.mutate_ok (s s1 : Storage) (t : EntityType) (a : Action) (id : Nat)
    (h : s.mutate t a id = Except.ok s1) :
    s1.journal = s.journal ++ [Write.entity t id a] ∧ s1.auditWritable = s.auditWritable ∧
    s1.auditLogs = s.auditLogs := by
  unfold Storage.mutate at h
  cases a <;> simp only at h <;> split at h <;> cases h <;>
    exact ⟨rfl, rfl, by simp [Storage.auditLogs, List.filterMap_append]⟩

/-- C2 as stated fails: a create through the asset usecase wired by
initUsecases succeeds while the audit log store refuses the write, and no
AuditLog record is appended: the journal holds the asset write alone. -/
theorem mutation_without_audit_record :
    ((initUsecases (initRepositories sampleDB)).Mutate EntityType.Asset Action.create 1 none "" 0
        brokenAuditStorage).1 = Except.ok () ∧
    ((initUsecases (initRepositories sampleDB)).Mutate EntityType.Asset Action.create 1 none "" 0
        brokenAuditStorage).2.auditLogs = [] ∧
    ((initUsecases (initRepositories sampleDB)).Mutate EntityType.Asset Action.create 1 none "" 0
        brokenAuditStorage).2.journal = [Write.entity EntityType.Asset 1 Action.create] :=
  ⟨rfl, rfl, rfl⟩

/-- C2 amended: for every successful create, update or delete of an asset,
a category or a location through the usecases wired by initUsecases, when
the audit log store accepts the write exactly one AuditLog record is
appended, it refers to that entity and action, and it is written right
after the repository mutation; when the store refuses the write the
mutation still succeeds and no record is appended. -/
theorem mutation_appends_one_audit_record (repos : repositories) (t : EntityType) (a : Action)
    (id : Nat) (actor : Option String) (change : String) (timestamp : Nat) (s : Storage)
    (hok : ((initUsecases repos).Mutate t a id actor change timestamp s).1 = Except.ok ()) :
    (s.auditWritable = true →
      ∃ r : AuditLog, r.entityType = t ∧ r.entityID = id ∧ r.action = a ∧
        ((initUsecases repos).Mutate t a id actor change timestamp s).2.auditLogs =
          s.auditLogs ++ [r] ∧
        ((initUsecases repos).Mutate t a id actor change timestamp s).2.journal =
          s.journal ++ [Write.entity t id a, Write.audit r]) ∧
    (s.auditWritable = false →
      ((initUsecases repos).Mutate t a id actor change timestamp s).2.auditLogs = s.auditLogs ∧
      ((initUsecases repos).Mutate t a id actor change timestamp s).2.journal =
        s.journal ++ [Write.entity t id a]) := by
  simp only [usecases.Mutate] at hok ⊢
  cases h : s.mutate t a id with
  | error e => simp [h] at hok
  | ok s1 =>
    obtain ⟨hj, hw, hl⟩ := Storage.mutate_ok s s1 _ _ _ h
    constructor
    · intro hwritable
      simp only [AuditLogUsecase.Record, Storage.append, hw, hwritable, if_true]
      refine ⟨AuditLog.mk (s1.auditLogs.length + 1) t id a actor change timestamp,
        rfl, rfl, rfl, ?_, ?_⟩
      · simp [Storage.auditLogs, List.filterMap_append, hj]
      · simp [hj]
    · intro hrefused
      simp only [AuditLogUsecase.Record, Storage.append, hw, hrefused]
      exact ⟨hl, hj⟩

/-- Witness for C2 amended: creating category 7 in an empty store appends
the first audit record right after the category write. -/
theorem mutation_appends_one_audit_record_witness :
    ((initUsecases (initRepositories sampleDB)).Mutate EntityType.AssetCategory Action.create 7
        (some "admin") "created" 42 emptyStorage).2.journal =
      [Write.entity EntityType.AssetCategory 7 Action.create,
        Write.audit (AuditLog.mk 1 EntityType.AssetCategory 7 Action.create (some "admin") "created" 42)] ∧
    ∃ r : AuditLog, r.entityType = EntityType.AssetCategory ∧ r.entityID = 7 ∧
      r.action = Action.create ∧
      ((initUsecases (initRepositories sampleDB)).Mutate EntityType.AssetCategory Action.create 7
        (some "admin") "created" 42 emptyStorage).2.auditLogs = emptyStorage.auditLogs ++ [r] ∧
      ((initUsecases (initRepositories sampleDB)).Mutate EntityType.AssetCategory Action.create 7
        (some "admin") "created" 42 emptyStorage).2.journal =
        emptyStorage.journal ++ [Write.entity EntityType.AssetCategory 7 Action.create, Write.audit r] :=
  ⟨rfl, (mutation_appends_one_audit_record (initRepositories sampleDB) EntityType.AssetCategory
    Action.create 7 (some "admin") "created" 42 emptyStorage rfl).1 rfl⟩

end Inventory
